import Mathlib

/-!
Shallow embedding of the TOEFL listening-prep TTS playback code:
the speech playback controller (src/services/geminiService.ts) and the
playback UI state machine (the AudioPlayer component).

The controller is event-driven JavaScript; we embed it as pure functions
over an explicit module state (the module-level mutable variables
audioElement, isEdgeTtsAvailable, availableVoices, plus the host speech
synthesis queue) and an explicit environment record describing the host
outcomes (fetch responses, media element behaviour, utterance behaviour).
Each playNativeTts invocation is evaluated to the final state together
with the list of onStart/onEnd callback invocations it produces.
-/

/-- A lifecycle callback invocation: onStart or onEnd
(the two callbacks handed to playNativeTts). -/
inductive Ev where
  | started
  | ended
deriving DecidableEq, Repr

/-- Host-level events a media element or utterance can fire
(play/start, ended/end, error). -/
inductive HostEv where
  | hStart
  | hEnd
  | hError
deriving DecidableEq, Repr

/-- A SpeechSynthesisVoice: name and language tag. -/
structure Voice where
  name : String
  lang : String
deriving DecidableEq, Repr

/-- An utterance handed to window.speechSynthesis.speak
(SpeechSynthesisUtterance fields set by playBrowserTts, lines 149-178). -/
structure Utterance where
  text : String
  rate : ℚ
  pitch : ℚ
  voice : Option Voice
deriving DecidableEq, Repr

/-- The controller module state: the module-level variables of
geminiService.ts (audioElement at line 8, isEdgeTtsAvailable at line 9,
availableVoices at line 13), plus the host speechSynthesis utterance
queue, which the module manipulates through cancel and speak.
Audio elements are identified by numbers. -/
structure SvcState where
  audioElement : Option Nat
  isEdgeTtsAvailable : Option Bool
  availableVoices : List Voice
  synthQueue : List Utterance
deriving DecidableEq, Repr

/-- Case-insensitive character list matching: does the first list start
the second one? (Both already lower-cased by the caller.) -/
def beginsWithChars : List Char → List Char → Bool
  | [], _ => true
  | _ :: _, [] => false
  | p :: ps, c :: cs => p == c && beginsWithChars ps cs

/-- Does the pattern occur contiguously inside the list? -/
def occursInChars (pat : List Char) : List Char → Bool
  | [] => pat.isEmpty
  | c :: cs => beginsWithChars pat (c :: cs) || occursInChars pat cs

/-- The JavaScript test v.name.toLowerCase().includes(k.toLowerCase())
used at line 159: case-insensitive substring containment. -/
def containsCI (s pat : String) : Bool :=
  occursInChars (pat.data.map Char.toLower) (s.data.map Char.toLower)

/-- checkEdgeTtsAvailability (lines 33-51): returns the availability
answer, the updated module state, and the number of network requests
performed by this call.  The environment value probe describes the
outcome of a GET /health round trip, were one performed: some b means a
response arrived within the 2-second abort timeout with response.ok = b;
none means the fetch threw (network failure or timeout). -/
def checkEdgeTtsAvailability (s : SvcState) (probe : Option Bool) :
    Bool × SvcState × Nat :=
  match s.isEdgeTtsAvailable with
  | some b => (b, s, 0)
  | none =>
      match probe with
      | some ok => (ok, { s with isEdgeTtsAvailable := some ok }, 1)
      | none => (false, { s with isEdgeTtsAvailable := some false }, 1)

/-- stopNativeTts (lines 56-68): pause and drop the current audio
element, and cancel all queued browser utterances. -/
def stopNativeTts (s : SvcState) : SvcState :=
  { s with audioElement := none, synthQueue := [] }

/-- findVoice closure (lines 158-160): first voice in the pool whose
name contains (case-insensitively) any of the keywords. -/
def findVoice (pool : List Voice) (keywords : List String) : Option Voice :=
  pool.find? (fun v => keywords.any (fun k => containsCI v.name k))

/-- The voice selection logic of playBrowserTts (lines 153-174):
restrict to en-US voices when any exist, try the role keyword table,
and otherwise fall back to the first voice of the pool. -/
def selectVoice (availableVoices : List Voice) (speakerType : String) :
    Option Voice :=
  let usVoices := availableVoices.filter (fun v => v.lang == "en-US")
  let pool := if usVoices.length > 0 then usVoices else availableVoices
  let selectedVoice : Option Voice :=
    if speakerType == "female" then
      findVoice pool ["Aria", "Natural", "Zira", "Google US English", "female"]
    else if speakerType == "male" then
      findVoice pool ["Guy", "Natural", "David", "male"]
    else if speakerType == "lecturer" then
      findVoice pool ["Guy", "Christopher", "Roger", "Natural", "male"]
    else if speakerType == "duo" then
      findVoice pool ["Aria", "Natural", "Google US English"]
    else none
  match selectedVoice with
  | some v => some v
  | none => pool.head?

/-- Host behaviour of one spoken utterance: which events the host fires
for it.  Per the speech synthesis contract an utterance fires start and
then exactly one of end or error, or fires error without starting. -/
inductive SpeakScript where
  | startsThenEnds
  | startsThenErrors
  | errorsOnly
deriving DecidableEq, Repr

/-- The host event sequence of a SpeakScript. -/
def speakScriptEvents : SpeakScript → List HostEv
  | SpeakScript.startsThenEnds => [HostEv.hStart, HostEv.hEnd]
  | SpeakScript.startsThenErrors => [HostEv.hStart, HostEv.hError]
  | SpeakScript.errorsOnly => [HostEv.hError]

/-- The handlers playBrowserTts installs on the utterance
(lines 180-185): onstart calls onStart, onend calls onEnd, and onerror
logs and calls onEnd. -/
def utterHandlers : HostEv → Ev
  | HostEv.hStart => Ev.started
  | HostEv.hEnd => Ev.ended
  | HostEv.hError => Ev.ended

/-- Result of one playBrowserTts invocation: the callback invocations it
leads to, the final module state, and the utterance passed to speak
(none when no speak request was issued at all). -/
structure BrowserRun where
  events : List Ev
  svc : SvcState
  utterance : Option Utterance
deriving DecidableEq, Repr

/-- playBrowserTts (lines 131-188).  hasSpeechSynthesis is the
line-137 capability test; when it fails the function logs and calls
onEnd immediately.  Otherwise it cancels queued utterances (line 143),
refreshes the voice list from getVoices when the stored list is empty
(lines 145-147, freshVoices being the getVoices result), builds the
utterance with rate 0.9 and pitch 1.0 and the selected voice, installs
the handlers, and speaks it.  The script argument is the host behaviour
of the spoken utterance. -/
def playBrowserTts (hasSpeechSynthesis : Bool) (s : SvcState)
    (text speakerType : String) (freshVoices : List Voice)
    (script : SpeakScript) : BrowserRun :=
  if !hasSpeechSynthesis then
    { events := [Ev.ended], svc := s, utterance := none }
  else
    let s1 := { s with synthQueue := [] }
    let voices := if s1.availableVoices.isEmpty then freshVoices
      else s1.availableVoices
    let u : Utterance :=
      { text := text, rate := 0.9, pitch := 1.0,
        voice := selectVoice voices speakerType }
    { events := (speakScriptEvents script).map utterHandlers,
      svc := { s1 with availableVoices := voices, synthQueue := [u] },
      utterance := some u }

/-- Host behaviour of the audio element created for a successful /tts
response, per the HTMLMediaElement contract:
playsThenEnds - play() resolves, the element fires play then ended;
playsThenErrors - play() resolves, the element fires play then a
mid-playback error;
rejectsQuietly - play() rejects with no element event (e.g. the
autoplay policy blocked it);
rejectsWithMediaError - the media data cannot be fetched or decoded:
the element fires error and play() rejects. -/
inductive PlayOutcome where
  | playsThenEnds
  | playsThenErrors
  | rejectsQuietly
  | rejectsWithMediaError
deriving DecidableEq, Repr

/-- The host event sequence the audio element fires under a
PlayOutcome. -/
def audioScriptEvents : PlayOutcome → List HostEv
  | PlayOutcome.playsThenEnds => [HostEv.hStart, HostEv.hEnd]
  | PlayOutcome.playsThenErrors => [HostEv.hStart, HostEv.hError]
  | PlayOutcome.rejectsQuietly => []
  | PlayOutcome.rejectsWithMediaError => [HostEv.hError]

/-- The handlers playEdgeTts installs on the audio element
(lines 102-117): onplay calls onStart, onended and onerror release the
object URL, null the module audioElement, and call onEnd. -/
def audioHandlers : HostEv → Ev
  | HostEv.hStart => Ev.started
  | HostEv.hEnd => Ev.ended
  | HostEv.hError => Ev.ended

/-- The error thrown out of playEdgeTts (rethrown at line 124). -/
inductive EdgeError where
  | fetchFailed
  | badStatus (status : Nat)
  | decodeFailed
  | playRejected
deriving DecidableEq, Repr

/-- Result of one playEdgeTts attempt: the error it throws (if any),
the callback invocations its handlers produce, and the value of the
module audioElement variable once the attempt (including any element
events) has run: the onended/onerror handlers null it, so it remains
set only when play() rejected with no element event. -/
structure EdgeAttempt where
  err : Option EdgeError
  events : List Ev
  finalAudio : Option Nat
deriving DecidableEq, Repr

/-- The Fetch API response.ok flag: status in the 2xx range. -/
def responseOk (status : Nat) : Bool := decide (200 ≤ status ∧ status < 300)

/-- Environment of one playNativeTts invocation: the host outcomes of
every suspension point the code can reach. -/
structure PlayEnv where
  /-- GET /health outcome, used only when availability is not yet
  memoized: some b = response with ok flag b, none = fetch threw. -/
  probe : Option Bool
  /-- POST /tts outcome: some status = a response with that HTTP
  status arrived, none = the fetch threw (network error). -/
  fetchStatus : Option Nat
  /-- response.blob() succeeded (payload decodable as a blob). -/
  blobOk : Bool
  /-- behaviour of the created audio element. -/
  playOutcome : PlayOutcome
  /-- the line-137 speechSynthesis capability test. -/
  hasSpeechSynthesis : Bool
  /-- what speechSynthesis.getVoices() returns on a refresh. -/
  freshVoices : List Voice
  /-- host behaviour of the fallback utterance, if one is spoken. -/
  speak : SpeakScript
deriving DecidableEq, Repr

/-- playEdgeTts (lines 73-126) evaluated against the environment.
A thrown error is returned in the err field; the events field holds
the onStart/onEnd invocations made by the installed element handlers.
Audio elements of this single-invocation model are numbered 0. -/
def playEdgeTtsAttempt (_text _speakerType : String) (env : PlayEnv) :
    EdgeAttempt :=
  match env.fetchStatus with
  | none => { err := some EdgeError.fetchFailed, events := [], finalAudio := none }
  | some status =>
      if responseOk status then
        if env.blobOk then
          let evs := (audioScriptEvents env.playOutcome).map audioHandlers
          match env.playOutcome with
          | PlayOutcome.playsThenEnds =>
              { err := none, events := evs, finalAudio := none }
          | PlayOutcome.playsThenErrors =>
              { err := none, events := evs, finalAudio := none }
          | PlayOutcome.rejectsQuietly =>
              { err := some EdgeError.playRejected, events := evs,
                finalAudio := some 0 }
          | PlayOutcome.rejectsWithMediaError =>
              { err := some EdgeError.playRejected, events := evs,
                finalAudio := none }
        else { err := some EdgeError.decodeFailed, events := [], finalAudio := none }
      else { err := some (EdgeError.badStatus status), events := [], finalAudio := none }

/-- The part of a playNativeTts result produced after the availability
check. -/
structure PlayCore where
  events : List Ev
  svc : SvcState
  /-- the browser fallback ran because the edge attempt threw. -/
  fellBack : Bool
  /-- the error playNativeTts lets escape to its caller; the source
  catches every edge failure (lines 206-212), so this is always none. -/
  propagatedError : Option EdgeError
deriving DecidableEq, Repr

/-- The branch of playNativeTts after availability resolution
(lines 205-215): on the edge path, a thrown playEdgeTts error is caught
and playBrowserTts is run for the same request; on the fallback path
playBrowserTts is run directly. -/
def playDispatch (s2 : SvcState) (useEdge : Bool)
    (text speakerType : String) (env : PlayEnv) : PlayCore :=
  if useEdge then
    let attempt := playEdgeTtsAttempt text speakerType env
    let s3 := { s2 with audioElement := attempt.finalAudio }
    match attempt.err with
    | none =>
        { events := attempt.events, svc := s3, fellBack := false,
          propagatedError := none }
    | some _ =>
        let b := playBrowserTts env.hasSpeechSynthesis s3 text speakerType
          env.freshVoices env.speak
        { events := attempt.events ++ b.events, svc := b.svc,
          fellBack := true, propagatedError := none }
  else
    let b := playBrowserTts env.hasSpeechSynthesis s2 text speakerType
      env.freshVoices env.speak
    { events := b.events, svc := b.svc, fellBack := false,
      propagatedError := none }

/-- Full result of one playNativeTts invocation. -/
structure PlayResult where
  events : List Ev
  svc : SvcState
  fellBack : Bool
  propagatedError : Option EdgeError
  /-- network requests made by the availability check in this call. -/
  probeCalls : Nat
deriving DecidableEq, Repr

/-- playNativeTts (lines 193-216), one isolated invocation run to
completion: stop current audio (line 200), resolve availability
(line 203), then dispatch to the edge or browser path. -/
def playNativeTts (s : SvcState) (text speakerType : String)
    (env : PlayEnv) : PlayResult :=
  let s1 := stopNativeTts s
  let c := checkEdgeTtsAvailability s1 env.probe
  let core := playDispatch c.2.1 c.1 text speakerType env
  { events := core.events, svc := core.svc, fellBack := core.fellBack,
    propagatedError := core.propagatedError, probeCalls := c.2.2 }

/-- Total number of /health network requests made across a sequence of
playNativeTts invocations, threading the module state. -/
def playsProbeCount (text speakerType : String) :
    SvcState → List PlayEnv → Nat
  | _, [] => 0
  | s, env :: rest =>
      let r := playNativeTts s text speakerType env
      r.probeCalls + playsProbeCount text speakerType r.svc rest

/-- The AudioPlayer component state flags (useState hooks). -/
structure UIState where
  isPlaying : Bool
  hasPlayed : Bool
  isLoading : Bool
deriving DecidableEq, Repr

/-- The initial AudioPlayer state: all three flags false. -/
def initialUiState : UIState := { isPlaying := false, hasPlayed := false, isLoading := false }

/-- The four observable UI phases, read off the component exactly as the
status bar renders them: isLoading shows Loading, else isPlaying shows
Speaking, else hasPlayed shows Finished, else Idle. -/
inductive Phase where
  | Idle
  | Loading
  | Speaking
  | Finished
deriving DecidableEq, Repr

/-- The phase the component presents for a flag assignment. -/
def phase (ui : UIState) : Phase :=
  if ui.isLoading then Phase.Loading
  else if ui.isPlaying then Phase.Speaking
  else if ui.hasPlayed then Phase.Finished
  else Phase.Idle

/-- handlePlay guard and first update: return unchanged when
isPlaying or isLoading, otherwise set isLoading and invoke the
controller.  The boolean records whether playNativeTts was invoked. -/
def handlePlay (ui : UIState) : UIState × Bool :=
  if ui.isPlaying || ui.isLoading then (ui, false)
  else ({ ui with isLoading := true }, true)

/-- The onStart callback handlePlay passes to the controller:
setIsLoading(false); setIsPlaying(true). -/
def onStartUpdate (ui : UIState) : UIState :=
  { ui with isLoading := false, isPlaying := true }

/-- The onEnd callback handlePlay passes to the controller:
setIsPlaying(false); setHasPlayed(true). -/
def onEndUpdate (ui : UIState) : UIState :=
  { ui with isPlaying := false, hasPlayed := true }

/-- The catch branch of handlePlay: setIsLoading(false);
setIsPlaying(false). -/
def onRejectUpdate (ui : UIState) : UIState :=
  { ui with isLoading := false, isPlaying := false }

/-- The effect the component runs when the passage text changes:
clear all three flags. -/
def onTextChangeUpdate (_ : UIState) : UIState :=
  { isPlaying := false, hasPlayed := false, isLoading := false }

/-- The passage-text-change effect on the whole system: reset the
flags and call stopNativeTts on the controller. -/
def onTextChange (ui : UIState) (svc : SvcState) : UIState × SvcState :=
  (onTextChangeUpdate ui, stopNativeTts svc)

/-- The keyword preference table of the specification, one list per
speaker role, empty for an undocumented role. -/
def roleKeywords (speakerType : String) : List String :=
  if speakerType == "female" then
    ["Aria", "Natural", "Zira", "Google US English", "female"]
  else if speakerType == "male" then
    ["Guy", "Natural", "David", "male"]
  else if speakerType == "lecturer" then
    ["Guy", "Christopher", "Roger", "Natural", "male"]
  else if speakerType == "duo" then
    ["Aria", "Natural", "Google US English"]
  else []

/-- A voice name matches the role when it contains any keyword of the role
list, case-insensitively. -/
def voiceMatchesRole (speakerType : String) (v : Voice) : Bool :=
  (roleKeywords speakerType).any (fun k => containsCI v.name k)

/-- Modelled from the claim (C4) as stated, for comparison with
selectVoice: try the keywords of the role in their preference order over the
whole voice list, the first keyword that matches some voice name
(case-insensitive substring) winning, and take the first such voice;
only if no keyword matches prefer a voice tagged en-US; only if there
is no en-US voice take the first voice of the list. -/
def selectVoiceClaimed (voices : List Voice) (speakerType : String) :
    Option Voice :=
  match (roleKeywords speakerType).findSome?
      (fun k => voices.find? (fun v => containsCI v.name k)) with
  | some v => some v
  | none =>
      match voices.find? (fun v => v.lang == "en-US") with
      | some v => some v
      | none => voices.head?

/-- The amended description of the selection the code performs,
written independently of selectVoice: restrict the pool to en-US voices
when any exist, take the first voice of that pool matching any of the
role keywords (keyword order immaterial), and otherwise the first
voice of that pool. -/
def selectVoiceAmendedSpec (voices : List Voice) (speakerType : String) :
    Option Voice :=
  let pool := if voices.any (fun v => v.lang == "en-US") then
    voices.filter (fun v => v.lang == "en-US") else voices
  match pool.find? (fun v => voiceMatchesRole speakerType v) with
  | some v => some v
  | none => pool.head?

/-- The callback invocations a playBrowserTts run produces, as a
function of the capability test and the utterance script alone. -/
def browserEvents (hasSpeechSynthesis : Bool) (script : SpeakScript) :
    List Ev :=
  if !hasSpeechSynthesis then [Ev.ended]
  else (speakScriptEvents script).map utterHandlers

/-- State of the interleaving model for overlapping playNativeTts
calls on the edge path: the module audioElement variable, the set of
audio elements currently playing (created and not paused or ended),
and the log of (invocation, callback) pairs fired so far.  Invocation i
uses audio element i. -/
structure RaceState where
  audioVar : Option Nat
  playing : List Nat
  log : List (Nat × Ev)
deriving DecidableEq, Repr

/-- Initial state of the interleaving model: nothing created. -/
def raceInit : RaceState := { audioVar := none, playing := [], log := [] }

/-- stopNativeTts in the interleaving model (lines 56-68): pause the
element the module variable currently references, if any, and null the
variable.  An element no longer referenced by the variable cannot be
paused. -/
def raceStop (s : RaceState) : RaceState :=
  match s.audioVar with
  | some a => { s with audioVar := none, playing := s.playing.erase a }
  | none => s

/-- The synchronous head of playNativeTts invocation i (line 200):
stopNativeTts runs, then the invocation suspends awaiting the
(memoized) availability check and its /tts fetch. -/
def beginPlay (s : RaceState) : RaceState := raceStop s

/-- The /tts fetch of invocation i resolves with an ok response
(lines 96-120): a fresh audio element i is created, the module variable
is overwritten to reference it, handlers are installed, and play() is
invoked, so element i starts playing.  Nothing pauses a previously
playing element here. -/
def resolveFetch (i : Nat) (s : RaceState) : RaceState :=
  { s with audioVar := some i, playing := s.playing ++ [i] }

/-- Element i fires play: the onStart of invocation i runs (lines 102-104). -/
def fireOnPlay (i : Nat) (s : RaceState) : RaceState :=
  { s with log := s.log ++ [(i, Ev.started)] }

/-- Element i fires ended: its handler (lines 106-110) revokes the
object URL, nulls the module variable unconditionally, and calls
the onEnd of invocation i. -/
def fireOnEnded (i : Nat) (s : RaceState) : RaceState :=
  { audioVar := none, playing := s.playing.erase i,
    log := s.log ++ [(i, Ev.ended)] }

/-- The voice of the concrete selection test in the specification. -/
def ziraVoice : Voice :=
  { name := "Microsoft Zira - English (United States)", lang := "en-US" }

/-- A two-voice en-US pool on which keyword preference order and pool
order disagree for role female: Zira comes first in the pool, Aria
first in the keyword table. -/
def ziraAriaPool : List Voice :=
  [{ name := "Microsoft Zira Desktop", lang := "en-US" },
   { name := "Microsoft Aria Online (Natural)", lang := "en-US" }]

/-- A module state with edge availability already memoized as
available and nothing else live. -/
def availableSvc : SvcState :=
  { audioElement := none, isEdgeTtsAvailable := some true,
    availableVoices := [], synthQueue := [] }

/-- Environment in which the /tts response arrives with status 200 but
its payload is not decodable media: the element fires error and play()
rejects, and the browser fallback then speaks an utterance that starts
and ends normally. -/
def mediaErrorEnv : PlayEnv :=
  { probe := none, fetchStatus := some 200, blobOk := true,
    playOutcome := PlayOutcome.rejectsWithMediaError,
    hasSpeechSynthesis := true, freshVoices := [ziraVoice],
    speak := SpeakScript.startsThenEnds }

/-- Environment in which the /tts request is answered with HTTP 500
and the browser fallback then speaks normally. -/
def status500Env : PlayEnv :=
  { probe := none, fetchStatus := some 500, blobOk := true,
    playOutcome := PlayOutcome.playsThenEnds,
    hasSpeechSynthesis := true, freshVoices := [ziraVoice],
    speak := SpeakScript.startsThenEnds }

/-- The AudioPlayer flag invariant: the Loading and Speaking indicators
are never shown together because isLoading and isPlaying are never both
true. -/
@[reducible]
def uiInv (ui : UIState) : Prop := ¬(ui.isLoading = true ∧ ui.isPlaying = true)

/-- A module state with edge availability memoized as unavailable and
an empty voice list. -/
def emptyVoiceSvc : SvcState :=
  { audioElement := none, isEdgeTtsAvailable := some false,
    availableVoices := [], synthQueue := [] }

/-- A pool with one non-US and one US voice, neither matching any
keyword. -/
def mixedPool : List Voice :=
  [{ name := "British Bob", lang := "en-GB" },
   { name := "Us Sam", lang := "en-US" }]

/-- The interleaving in which a second playNativeTts call is issued
while the /tts fetch of the first call is still pending (so before the
first onStart), and both fetches then resolve: play 1 begins, play 2
begins, fetch 1 resolves and element 1 starts, fetch 2 resolves and
element 2 starts. -/
def raceMid : RaceState :=
  resolveFetch 2 (fireOnPlay 1 (resolveFetch 1 (beginPlay (beginPlay raceInit))))

/-- The same interleaving run to completion: element 2 fires play and
both elements eventually fire ended. -/
def raceFinal : RaceState :=
  fireOnEnded 2 (fireOnEnded 1 (fireOnPlay 2 raceMid))

theorem playBrowserTts_events (hs : Bool) (s : SvcState) (t r : String)
    (f : List Voice) (sc : SpeakScript) :
    (playBrowserTts hs s t r f sc).events = browserEvents hs sc := by
  cases hs <;> simp [playBrowserTts, browserEvents]

theorem playBrowserTts_flag (hs : Bool) (s : SvcState) (t r : String)
    (f : List Voice) (sc : SpeakScript) :
    (playBrowserTts hs s t r f sc).svc.isEdgeTtsAvailable =
      s.isEdgeTtsAvailable := by
  cases hs <;> simp [playBrowserTts]

theorem playDispatch_flag (s2 : SvcState) (u : Bool) (t r : String)
    (env : PlayEnv) :
    (playDispatch s2 u t r env).svc.isEdgeTtsAvailable =
      s2.isEdgeTtsAvailable := by
  cases u with
  | false => simp [playDispatch, playBrowserTts_flag]
  | true =>
      cases h : (playEdgeTtsAttempt t r env).err with
      | none => simp [playDispatch, h]
      | some e => simp [playDispatch, h, playBrowserTts_flag]

theorem playNativeTts_memoStep (s : SvcState) (t r : String) (env : PlayEnv)
    (b : Bool) (h : s.isEdgeTtsAvailable = some b) :
    (playNativeTts s t r env).probeCalls = 0 ∧
    (playNativeTts s t r env).svc.isEdgeTtsAvailable = some b := by
  have hs1 : (stopNativeTts s).isEdgeTtsAvailable = some b := by
    simp [stopNativeTts, h]
  simp [playNativeTts, checkEdgeTtsAvailability, hs1, playDispatch_flag]

theorem playNativeTts_freshStep (s : SvcState) (t r : String) (env : PlayEnv)
    (h : s.isEdgeTtsAvailable = none) :
    (playNativeTts s t r env).probeCalls = 1 ∧
    ∃ b, (playNativeTts s t r env).svc.isEdgeTtsAvailable = some b := by
  have hs1 : (stopNativeTts s).isEdgeTtsAvailable = none := by
    simp [stopNativeTts, h]
  cases hp : env.probe with
  | none =>
      refine ⟨?_, false, ?_⟩ <;>
        simp [playNativeTts, checkEdgeTtsAvailability, hs1, hp, playDispatch_flag]
  | some ok =>
      refine ⟨?_, ok, ?_⟩ <;>
        simp [playNativeTts, checkEdgeTtsAvailability, hs1, hp, playDispatch_flag]

theorem playsProbeCount_memo (t r : String) (envs : List PlayEnv) :
    ∀ (s : SvcState) (b : Bool), s.isEdgeTtsAvailable = some b →
      playsProbeCount t r s envs = 0 := by
  induction envs with
  | nil => intro s b _; rfl
  | cons e rest ih =>
      intro s b h
      have hm := playNativeTts_memoStep s t r e b h
      simp [playsProbeCount, hm.1, ih _ _ hm.2]

theorem filter_length_pos {α : Type} (p : α → Bool) (l : List α) :
    0 < (l.filter p).length ↔ l.any p = true := by
  induction l with
  | nil => simp
  | cons a l ih => cases h : p a <;> simp [List.filter_cons, h, ih]

theorem selectVoice_nil (speakerType : String) :
    selectVoice [] speakerType = none := by
  unfold selectVoice findVoice
  simp

theorem find?_false {α : Type} (l : List α) :
    List.find? (fun _ => false) l = none := by
  induction l <;> simp_all

theorem selectVoice_eq_amended (voices : List Voice) (speakerType : String) :
    selectVoice voices speakerType = selectVoiceAmendedSpec voices speakerType := by
  dsimp only [selectVoice, selectVoiceAmendedSpec, voiceMatchesRole,
    roleKeywords, findVoice]
  have hpool : (if (voices.filter (fun v => v.lang == "en-US")).length > 0
      then voices.filter (fun v => v.lang == "en-US") else voices)
      = (if voices.any (fun v => v.lang == "en-US")
      then voices.filter (fun v => v.lang == "en-US") else voices) := by
    by_cases h : voices.any (fun v => v.lang == "en-US") = true
    · rw [if_pos ((filter_length_pos _ _).mpr h), if_pos h]
    · rw [if_neg (fun hc => h ((filter_length_pos _ _).mp hc)), if_neg h]
  rw [hpool]
  cases hf : speakerType == "female" with
  | true => simp [voiceMatchesRole, roleKeywords, hf]
  | false =>
    cases hm : speakerType == "male" with
    | true => simp [voiceMatchesRole, roleKeywords, hf, hm]
    | false =>
      cases hl : speakerType == "lecturer" with
      | true => simp [voiceMatchesRole, roleKeywords, hf, hm, hl]
      | false =>
        cases hd : speakerType == "duo" with
        | true => simp [voiceMatchesRole, roleKeywords, hf, hm, hl, hd]
        | false =>
          simp [voiceMatchesRole, roleKeywords, hf, hm, hl, hd, find?_false]

/-- Claim C7: a play action is accepted exactly when the UI is in the
Idle or Finished phase, in which case the state transitions to Loading
and the controller is invoked; play actions arriving in the Loading or
Speaking phase leave the state unchanged and do not invoke the
controller. -/
theorem audioPlayer_playGate (ui : UIState) :
    ((phase ui = Phase.Idle ∨ phase ui = Phase.Finished) →
      handlePlay ui = ({ ui with isLoading := true }, true) ∧
      phase (handlePlay ui).1 = Phase.Loading) ∧
    ((phase ui = Phase.Loading ∨ phase ui = Phase.Speaking) →
      handlePlay ui = (ui, false)) ∧
    ((handlePlay ui).2 = true ↔
      (phase ui = Phase.Idle ∨ phase ui = Phase.Finished)) := by
  rcases ui with ⟨p, hp, l⟩
  cases p <;> cases hp <;> cases l <;> exact (by decide)

/-- Witness for C7: from the initial state the play action is accepted
and the phase becomes Loading. -/
theorem audioPlayer_playGate_witness :
    handlePlay initialUiState =
      ({ initialUiState with isLoading := true }, true) ∧
    phase (handlePlay initialUiState).1 = Phase.Loading :=
  (audioPlayer_playGate initialUiState).1 (Or.inl (by decide))

/-- Claim C8: the passage-text-change effect resets the UI to the Idle
phase with isPlaying, isLoading and hasPlayed all cleared, and invokes
stopNativeTts on the controller, which drops the audio element and
cancels all queued utterances. -/
theorem audioPlayer_textChangeReset (ui : UIState) (svc : SvcState) :
    phase (onTextChange ui svc).1 = Phase.Idle ∧
    (onTextChange ui svc).1.isPlaying = false ∧
    (onTextChange ui svc).1.isLoading = false ∧
    (onTextChange ui svc).1.hasPlayed = false ∧
    (onTextChange ui svc).2 = stopNativeTts svc ∧
    (onTextChange ui svc).2.audioElement = none ∧
    (onTextChange ui svc).2.synthQueue = [] :=
  ⟨rfl, rfl, rfl, rfl, rfl, rfl, rfl⟩

/-- Claim C9: isLoading and isPlaying are never both true: the initial
state satisfies this, and every state update site of the component
(play action, onStart callback, onEnd callback, rejection handler,
text-change reset) preserves it. -/
theorem audioPlayer_flagsInv :
    uiInv initialUiState ∧
    ∀ ui : UIState, uiInv ui →
      uiInv (handlePlay ui).1 ∧ uiInv (onStartUpdate ui) ∧
      uiInv (onEndUpdate ui) ∧ uiInv (onRejectUpdate ui) ∧
      uiInv (onTextChangeUpdate ui) := by
  constructor
  · exact (by decide)
  · intro ui h
    revert h
    rcases ui with ⟨p, hp, l⟩
    cases p <;> cases hp <;> cases l <;> decide

/-- Witness for C9: the invariant holds after an accepted play action
and after an onStart callback from the initial state. -/
theorem audioPlayer_flagsInv_witness :
    uiInv (handlePlay initialUiState).1 ∧
    uiInv (onStartUpdate initialUiState) :=
  ⟨(audioPlayer_flagsInv.2 initialUiState (by decide)).1,
   (audioPlayer_flagsInv.2 initialUiState (by decide)).2.1⟩

/-- Claim C2: the availability probe is memoized.  A first call with the
flag unset performs exactly one network request and memoizes the
outcome (available on an OK response within the timeout, unavailable on
a throw, which covers timeouts and network failures); a call with the
flag already set returns the memoized value, changes nothing and makes
no request; and any sequence of playNativeTts invocations from a fresh
state performs at most one probe request in total, none once the flag
is set. -/
theorem edgeTts_probeMemoized :
    (∀ (ae : Option Nat) (v : List Voice) (q : List Utterance) (b : Bool),
      checkEdgeTtsAvailability ⟨ae, none, v, q⟩ (some b) =
        (b, ⟨ae, some b, v, q⟩, 1)) ∧
    (∀ (ae : Option Nat) (v : List Voice) (q : List Utterance),
      checkEdgeTtsAvailability ⟨ae, none, v, q⟩ none =
        (false, ⟨ae, some false, v, q⟩, 1)) ∧
    (∀ (ae : Option Nat) (v : List Voice) (q : List Utterance) (b : Bool)
      (probe : Option Bool),
      checkEdgeTtsAvailability ⟨ae, some b, v, q⟩ probe =
        (b, ⟨ae, some b, v, q⟩, 0)) ∧
    (∀ (text role : String) (ae : Option Nat) (v : List Voice)
      (q : List Utterance) (envs : List PlayEnv),
      playsProbeCount text role ⟨ae, none, v, q⟩ envs ≤ 1) ∧
    (∀ (text role : String) (ae : Option Nat) (b : Bool) (v : List Voice)
      (q : List Utterance) (envs : List PlayEnv),
      playsProbeCount text role ⟨ae, some b, v, q⟩ envs = 0) := by
  refine ⟨fun ae v q b => rfl, fun ae v q => rfl, fun ae v q b probe => rfl,
    ?_, ?_⟩
  · intro text role ae v q envs
    cases envs with
    | nil => exact Nat.le_refl 0 |>.trans (Nat.zero_le 1)
    | cons e rest =>
        have hf := playNativeTts_freshStep ⟨ae, none, v, q⟩ text role e rfl
        obtain ⟨b, hb⟩ := hf.2
        have hrest := playsProbeCount_memo text role rest _ b hb
        simp [playsProbeCount, hf.1, hrest]
  · intro text role ae b v q envs
    exact playsProbeCount_memo text role envs ⟨ae, some b, v, q⟩ b rfl

/-- Claim C3: whenever the backend has been resolved available but the
remote attempt throws (network error on /tts, a non-2xx status such as
500, or a blob decode failure — every case in which playEdgeTts ends
with an error), the same playNativeTts call runs the browser fallback
for the same request, the fallback events follow the edge attempt events,
and no error is propagated to the caller. -/
theorem playNativeTts_fallbackOnRemoteFailure (s : SvcState)
    (text role : String) (env : PlayEnv) (e : EdgeError)
    (hAvail : s.isEdgeTtsAvailable = some true)
    (hFail : (playEdgeTtsAttempt text role env).err = some e) :
    (playNativeTts s text role env).fellBack = true ∧
    (playNativeTts s text role env).propagatedError = none ∧
    (playNativeTts s text role env).events =
      (playEdgeTtsAttempt text role env).events ++
        browserEvents env.hasSpeechSynthesis env.speak := by
  have hs1 : (stopNativeTts s).isEdgeTtsAvailable = some true := by
    simp [stopNativeTts, hAvail]
  refine ⟨?_, ?_, ?_⟩ <;>
    simp [playNativeTts, checkEdgeTtsAvailability, hs1, playDispatch, hFail,
      playBrowserTts_events]

/-- Witness for C3: with availability memoized and /tts answering 500,
the call falls back to a browser utterance for the same request and
returns normally. -/
theorem playNativeTts_fallbackOnRemoteFailure_witness :
    (playNativeTts availableSvc "Lecture one" "female" status500Env).fellBack
      = true ∧
    (playNativeTts availableSvc "Lecture one" "female"
      status500Env).propagatedError = none ∧
    (playNativeTts availableSvc "Lecture one" "female" status500Env).events =
      (playEdgeTtsAttempt "Lecture one" "female" status500Env).events ++
        browserEvents status500Env.hasSpeechSynthesis status500Env.speak :=
  playNativeTts_fallbackOnRemoteFailure availableSvc "Lecture one" "female"
    status500Env (EdgeError.badStatus 500) rfl (by decide)

/-- Claim C1 (evaluation at the failing interleaving): when a second
playNativeTts call is issued while the /tts fetch of the first call is
still pending (before the first onStart), the stop of the second call finds
nothing to release; once both fetches resolve, two audio elements are
live at the same time, the module variable references only the second,
and the run as a whole fires two start/end callback pairs — the first
element of the first attempt is never paused or released by the second
call. -/
theorem overlappingPlays_twoLiveHandles :
    raceMid.playing = [1, 2] ∧
    raceMid.playing.length = 2 ∧
    raceMid.audioVar = some 2 ∧
    raceFinal.log = [(1, Ev.started), (2, Ev.started),
      (1, Ev.ended), (2, Ev.ended)] ∧
    (raceFinal.log.filter (fun p => p.2 == Ev.started)).length = 2 := by
  decide

/-- Claim C6 (evaluation at the failing environment): when the /tts
response arrives with status 200 but its payload is not decodable
media, the error handler of the element fires onEnd and the rejected play()
promise additionally triggers the browser fallback, whose utterance
fires onStart and onEnd — a single playNativeTts invocation thus
produces three lifecycle events with onEnd invoked twice. -/
theorem playNativeTts_doubleEndOnMediaError :
    (playNativeTts availableSvc "passage" "female" mediaErrorEnv).events =
      [Ev.ended, Ev.started, Ev.ended] ∧
    ((playNativeTts availableSvc "passage" "female"
      mediaErrorEnv).events.count Ev.ended) = 2 ∧
    ((playNativeTts availableSvc "passage" "female"
      mediaErrorEnv).events.length) = 3 := by
  decide

/-- Counterexample to claim C4 as stated: on a pool where the first
voice matches a later keyword (Zira) and a later voice matches the
first keyword (Aria), the claimed keyword-preference-order selection
picks the Aria voice while the code picks the Zira voice: keyword list
order is not what wins in the code. -/
theorem voiceSelection_keywordOrder_cx :
    selectVoice ziraAriaPool "female" =
      some { name := "Microsoft Zira Desktop", lang := "en-US" } ∧
    selectVoiceClaimed ziraAriaPool "female" =
      some { name := "Microsoft Aria Online (Natural)", lang := "en-US" } ∧
    selectVoice ziraAriaPool "female" ≠
      selectVoiceClaimed ziraAriaPool "female" := by
  decide

/-- Claim C4 as amended: the pool is restricted to en-US voices before
any keyword matching (the full list only when no en-US voice exists);
the selection takes the first voice of that pool whose name contains,
case-insensitively, any keyword of the role, keyword order being
immaterial; if no voice matches, the first voice of that pool is used.
With a pool containing only the Microsoft Zira en-US voice, role
female selects it by keyword and role male falls back to it as
first-in-pool. -/
theorem voiceSelection_amended :
    (∀ (voices : List Voice) (speakerType : String),
      selectVoice voices speakerType =
        selectVoiceAmendedSpec voices speakerType) ∧
    selectVoice [ziraVoice] "female" = some ziraVoice ∧
    selectVoice [ziraVoice] "male" = some ziraVoice :=
  ⟨selectVoice_eq_amended, by decide, by decide⟩

/-- Counterexample to claim C5 as stated: with the synthesis capability
present but an empty voice list (both the stored list and a getVoices
refresh), the play attempt is not terminated with an immediate lone
onEnd: an utterance is still handed to speak, and with a normally
proceeding host utterance the attempt fires onStart before onEnd,
producing audio with the platform default voice. -/
theorem emptyVoices_noImmediateEnd_cx :
    ((playBrowserTts true emptyVoiceSvc "passage" "female" []
      SpeakScript.startsThenEnds).utterance).isSome = true ∧
    (playBrowserTts true emptyVoiceSvc "passage" "female" []
      SpeakScript.startsThenEnds).events ≠ [Ev.ended] ∧
    (playBrowserTts true emptyVoiceSvc "passage" "female" []
      SpeakScript.startsThenEnds).events = [Ev.started, Ev.ended] := by
  decide

/-- Claim C5 as amended: the immediate onEnd without audio happens
exactly when no on-device synthesis capability exists; with the
capability present but an empty voice list, the code still issues a
speak request whose utterance carries no selected voice, and the
terminal onEnd comes from the end or error callback of that utterance
rather than immediately. -/
theorem localSynth_immediateEnd_amended :
    (∀ (s : SvcState) (text role : String) (fresh : List Voice)
      (script : SpeakScript),
      playBrowserTts false s text role fresh script =
        { events := [Ev.ended], svc := s, utterance := none }) ∧
    (∀ (ae : Option Nat) (flag : Option Bool) (q : List Utterance)
      (text role : String) (script : SpeakScript),
      ∃ u : Utterance,
        (playBrowserTts true ⟨ae, flag, [], q⟩ text role [] script).utterance
          = some u ∧
        u.voice = none ∧
        (playBrowserTts true ⟨ae, flag, [], q⟩ text role [] script).events =
          (speakScriptEvents script).map utterHandlers) := by
  constructor
  · intro s text role fresh script
    rfl
  · intro ae flag q text role script
    refine ⟨{ text := text, rate := 0.9, pitch := 1.0, voice := none },
      ?_, rfl, ?_⟩ <;>
      simp [playBrowserTts, selectVoice_nil]

/-- Claim C10: for a speakerType outside the four documented roles, no
keyword matching is performed: the selection is the first voice of the
effective pool (the first en-US voice when any exists, otherwise the
first voice overall), and the browser path still issues a synthesis
request with rate 0.9 and pitch 1.0 for the given text instead of
failing. -/
theorem unknownRole_selection (voices : List Voice) (role : String)
    (h1 : role ≠ "female") (h2 : role ≠ "male") (h3 : role ≠ "lecturer")
    (h4 : role ≠ "duo") :
    selectVoice voices role =
      (if voices.any (fun v => v.lang == "en-US") then
        (voices.filter (fun v => v.lang == "en-US")).head?
      else voices.head?) ∧
    (∀ (s : SvcState) (text : String) (fresh : List Voice)
      (script : SpeakScript),
      ∃ u : Utterance,
        (playBrowserTts true s text role fresh script).utterance = some u ∧
        u.rate = 0.9 ∧ u.pitch = 1.0 ∧ u.text = text) := by
  constructor
  · have hf : (role == "female") = false := beq_eq_false_iff_ne.mpr h1
    have hm : (role == "male") = false := beq_eq_false_iff_ne.mpr h2
    have hl : (role == "lecturer") = false := beq_eq_false_iff_ne.mpr h3
    have hd : (role == "duo") = false := beq_eq_false_iff_ne.mpr h4
    dsimp only [selectVoice, findVoice]
    rw [hf, hm, hl, hd]
    simp only [Bool.false_eq_true, if_false]
    by_cases hany : voices.any (fun v => v.lang == "en-US") = true
    · rw [if_pos ((filter_length_pos _ _).mpr hany), if_pos hany]
    · rw [if_neg (fun hc => hany ((filter_length_pos _ _).mp hc)),
        if_neg hany]
  · intro s text fresh script
    exact ⟨_, rfl, rfl, rfl, rfl⟩

/-- Witness for C10: with the undocumented role narrator and a pool
holding a non-US voice before a US voice, the first en-US voice is
selected. -/
theorem unknownRole_selection_witness :
    selectVoice mixedPool "narrator" =
      some { name := "Us Sam", lang := "en-US" } := by
  have h := unknownRole_selection mixedPool "narrator" (by decide)
    (by decide) (by decide) (by decide)
  rw [h.1]
  decide
